import Mathlib

/-!
# Verification development for the Vulkan bootstrap skeleton

Shallow embedding of `src/logs.hpp`, `src/validation_layers.cpp` and
`src/main.cpp`.

* `std::string_view` is a `List Char`; `size_t` is a `Nat` reduced modulo
  `2 ^ 64`, `npos` is `2 ^ 64 - 1`.
* Vulkan / GLFW handles are natural numbers, `VK_NULL_HANDLE` is `0`.
* The native API is an oracle (`Host`): every query is a function of its
  arguments.  Calls that initialise, create, retrieve, destroy or print are
  recorded as `Event`s.
* A method of `App` is a function `World → Except Exit α × World`, where the
  `World` holds the fields of `App` and the trace of events so far.
-/

namespace VulkanCpp

/-! ## `size_t` arithmetic and the `std::string_view` members used by `logs.hpp` -/

/-- Number of values of a `size_t`. -/
def SIZE_MOD : Nat := 2 ^ 64

/-- The constant `std::string_view::npos`, that is `size_t(-1)`. -/
def npos : Nat := SIZE_MOD - 1

/-- Unsigned addition on `size_t`. -/
def size_add (a b : Nat) : Nat := (a + b) % SIZE_MOD

/-- Unsigned subtraction on `size_t` (for operands below `SIZE_MOD`). -/
def size_sub (a b : Nat) : Nat := (a + SIZE_MOD - b % SIZE_MOD) % SIZE_MOD

/-- Forward scan of `find_first_of`: `i` is the index of the head of the
remaining text. -/
def find_first_of_loop (chars : List Char) : List Char → Nat → Nat
  | [], _ => npos
  | c :: cs, i => if chars.elem c then i else find_first_of_loop chars cs (i + 1)

/-- Member `std::string_view::find_first_of(chars)` (search from position 0):
the index of the first character that is one of `chars`, or `npos`. -/
def find_first_of (s chars : List Char) : Nat :=
  find_first_of_loop chars s 0

/-- Backward scan of `find_last_of`, from index `i` down to index `0`. -/
def find_last_of_loop (s chars : List Char) : Nat → Nat
  | 0 => if (s[0]?).any (fun c => chars.elem c) then 0 else npos
  | i + 1 =>
    if (s[i + 1]?).any (fun c => chars.elem c) then i + 1
    else find_last_of_loop s chars i

/-- Member `std::string_view::find_last_of(chars, pos)`: the index of the last
character at a position `≤ pos` that is one of `chars`, or `npos`. -/
def find_last_of (s chars : List Char) (pos : Nat) : Nat :=
  if s.length = 0 ∨ chars.length = 0 then npos
  else find_last_of_loop s chars (min (s.length - 1) pos)

/-- Member `std::string_view::substr(pos, count)`: `none` stands for the
`std::out_of_range` exception thrown when `pos > size()`. -/
def substr (s : List Char) (pos count : Nat) : Option (List Char) :=
  if pos > s.length then none
  else some ((s.drop pos).take (min count (s.length - pos)))

/-- The view `std::string_view(data + off, len)` built from a pointer into the
text of `s` and a length; it reads `len` characters from offset `off`.  A view
that would reach past the end of the text (undefined in C++) is cut at the end
of the text here. -/
def string_view_at (s : List Char) (off len : Nat) : List Char :=
  (s.drop off).take len

/-! ## `logs.hpp` -/

/-- Function `filename` (`logs.hpp`, lines 3-5):
`file.substr(file.find_last_of("/") + 1, file.size() - 1)`. -/
def filename (file : List Char) : Option (List Char) :=
  substr file (size_add (find_last_of file ['/'] npos) 1) (size_sub file.length 1)

/-- Function `func_sig` (`logs.hpp`, lines 7-11). -/
def func_sig (fn : List Char) : List Char :=
  let finish := find_first_of fn ['(']
  let start := find_last_of fn [' '] finish
  string_view_at fn (size_add start 1) (size_sub (size_sub finish start) 1)


/-! ## Vulkan and GLFW declarations used by the program -/

/-- Handles (`VkInstance`, `VkPhysicalDevice`, `GLFWwindow*`, ...). -/
abbrev Handle := Nat

/-- The null handle. -/
def VK_NULL_HANDLE : Handle := 0

/-- Result codes of the Vulkan API (`VkResult` of `vulkan_core.h`). -/
abbrev VkResult := Int

def VK_SUCCESS : VkResult := 0
def VK_ERROR_EXTENSION_NOT_PRESENT : VkResult := -7
def VK_ERROR_OUT_OF_HOST_MEMORY : VkResult := -1

/-- The conversion `i32(x)` of a `u32` to a 32-bit signed integer. -/
def i32 (x : Nat) : Int :=
  if x % 2 ^ 32 < 2 ^ 31 then (x % 2 ^ 32 : Nat) else ((x % 2 ^ 32 : Nat) : Int) - 2 ^ 32

/-- The type `VkBool32`: zero is false, anything else is true. -/
abbrev VkBool32 := Nat

def VK_QUEUE_GRAPHICS_BIT : Nat := 1
def VK_QUEUE_TRANSFER_BIT : Nat := 4
def VK_PHYSICAL_DEVICE_TYPE_INTEGRATED_GPU : Nat := 1
def VK_PHYSICAL_DEVICE_TYPE_DISCRETE_GPU : Nat := 2
def VK_EXT_DEBUG_UTILS_EXTENSION_NAME : String := "VK_EXT_debug_utils"
def GLFW_CLIENT_API : Nat := 0x00022001
def GLFW_NO_API : Nat := 0

structure VkExtensionProperties where
  extensionName : String
  deriving DecidableEq, Repr

structure VkLayerProperties where
  layerName : String
  deriving DecidableEq, Repr

structure VkPhysicalDeviceProperties where
  deviceType : Nat
  deviceName : String
  deriving DecidableEq, Repr

structure VkPhysicalDeviceFeatures where
  geometryShader : VkBool32
  deriving DecidableEq, Repr

structure VkQueueFamilyProperties where
  queueFlags : Nat
  queueCount : Nat
  deriving DecidableEq, Repr

/-- Modelled from the spec: the macro `STR` is declared in `utils.hpp`, which is
not among the sources; it is taken to turn its argument into a string
literal. -/
def STR (name : String) : String := name

/-! ## Observable events, the host, and the execution monad -/

inductive Level
  | info | warn | error | fatal
  deriving DecidableEq, Repr

/-- An argument passed to a format string. -/
inductive FmtArg
  | str (s : String)
  | num (n : Nat)
  deriving DecidableEq, Repr

/-- What the program does to the outside world: a line printed by one of the
`log_*` macros (format string and arguments; the file, line and function
decoration is left out) or a call that initialises, creates, retrieves or
destroys something. -/
inductive Event
  | log (level : Level) (format : String) (args : List FmtArg)
  | glfwInit
  | glfwWindowHint (hint value : Nat)
  | glfwCreateWindow (width height : Int) (title : String)
  | vkCreateInstance (layers extensions : List String)
  | vkCreateDebugUtilsMessengerEXT (inst : Handle)
  | vkCreateWin32SurfaceKHR (inst hinstance hwnd : Handle)
  | vkCreateDevice (physicalDevice : Handle) (queueFamilyIndex : Nat) (layers : List String)
  | vkGetDeviceQueue (device : Handle) (queueFamilyIndex queueIndex : Nat)
  | vkDestroyDebugUtilsMessengerEXT (inst messenger : Handle)
  | vkDestroySurfaceKHR (inst surface : Handle)
  | vkDestroyDevice (device : Handle)
  | vkDestroyInstance (inst : Handle)
  | glfwDestroyWindow (window : Handle)
  | glfwTerminate
  deriving DecidableEq, Repr

/-- Whether an event is a call of `vkCreateInstance`. -/
def Event.isCreateInstance : Event → Bool
  | .vkCreateInstance _ _ => true
  | _ => false

/-- Everything outside the program: the build configuration and the answers of
GLFW, Win32 and Vulkan.  A query answers the same for the same arguments; a
creation call answers with a result code and the handle it writes. -/
structure Host where
  /-- whether `assert` is compiled out -/
  NDEBUG : Bool
  vkEnumerateInstanceExtensionProperties : List VkExtensionProperties
  vkEnumerateInstanceLayerProperties : List VkLayerProperties
  glfwGetRequiredInstanceExtensions : List String
  glfwCreateWindow : Handle
  glfwGetWin32Window : Handle → Handle
  GetModuleHandle : Handle
  /-- the argument is the number of earlier `vkCreateInstance` calls -/
  vkCreateInstance : Nat → VkResult × Handle
  /-- whether the looked-up function pointer is non-null -/
  vkGetInstanceProcAddr : Handle → String → Bool
  vkCreateDebugUtilsMessengerEXT : Handle → VkResult × Handle
  vkCreateWin32SurfaceKHR : Handle → VkResult × Handle
  vkEnumeratePhysicalDevices : Handle → List Handle
  vkGetPhysicalDeviceProperties : Handle → VkPhysicalDeviceProperties
  vkGetPhysicalDeviceFeatures : Handle → VkPhysicalDeviceFeatures
  vkGetPhysicalDeviceQueueFamilyProperties : Handle → List VkQueueFamilyProperties
  /-- arguments: device, queue family index, surface -/
  vkGetPhysicalDeviceSurfaceSupportKHR : Handle → Nat → Handle → VkBool32
  vkCreateDevice : Handle → VkResult × Handle
  vkGetDeviceQueue : Handle → Nat → Nat → Handle

structure Window where
  handle : Handle
  title : String
  width : Nat
  height : Nat
  vsync : Bool
  windowed : Bool
  deriving DecidableEq, Repr

structure QueueFamilyIndices where
  graphics_family : Option Nat
  present_family : Option Nat
  deriving DecidableEq, Repr

def QueueFamilyIndices.is_complete (self : QueueFamilyIndices) : Bool :=
  self.graphics_family.isSome && self.present_family.isSome

/-- The data members of `class App`. -/
structure App where
  vk_instance_ : Handle
  phys_device_ : Handle
  debug_messenger_ : Handle
  device_ : Handle
  vk_queue_ : Handle
  vk_present_queue_ : Handle
  surface_ : Handle
  layers_ : List String
  main_window_ : Window
  deriving DecidableEq, Repr

/-- The object and what has been observed so far. -/
structure World where
  app : App
  trace : List Event
  deriving DecidableEq, Repr

/-- Ways in which control leaves a function abnormally. -/
inductive Exit
  /-- a call of `std::terminate()` -/
  | terminate
  /-- a failed `assert` -/
  | assert_failed
  /-- the exception thrown by `std::optional::value()` on an empty optional -/
  | bad_optional_access
  deriving DecidableEq, Repr

deriving instance DecidableEq for Except

/-- A computation on the world that either returns or leaves abnormally. -/
def Exec (α : Type) : Type := World → Except Exit α × World

def Exec.pure {α : Type} (a : α) : Exec α := fun w => (.ok a, w)

def Exec.bind {α β : Type} (m : Exec α) (f : α → Exec β) : Exec β := fun w =>
  match m w with
  | (.ok a, w1) => f a w1
  | (.error e, w1) => (.error e, w1)

instance : Monad Exec where
  pure := Exec.pure
  bind := Exec.bind

def emit (e : Event) : Exec Unit := fun w => (.ok (), { w with trace := w.trace ++ [e] })

def leave {α : Type} (e : Exit) : Exec α := fun w => (.error e, w)

def getApp : Exec App := fun w => (.ok w.app, w)

def getTrace : Exec (List Event) := fun w => (.ok w.trace, w)

def modifyApp (f : App → App) : Exec Unit := fun w => (.ok (), { w with app := f w.app })

/-- Member `std::optional::value()`. -/
def optional_value {α : Type} : Option α → Exec α
  | some a => Exec.pure a
  | none => leave .bad_optional_access

def log_info (format : String) (args : List FmtArg) : Exec Unit := emit (.log .info format args)
def log_warn (format : String) (args : List FmtArg) : Exec Unit := emit (.log .warn format args)
def log_error (format : String) (args : List FmtArg) : Exec Unit := emit (.log .error format args)
def log_fatal (format : String) (args : List FmtArg) : Exec Unit := emit (.log .fatal format args)

/-! ## `validation_layers.cpp` -/

namespace vk

/-- Function `vk::required_extensions` (`validation_layers.cpp`, lines 6-18). -/
def required_extensions (host : Host) : List String :=
  host.glfwGetRequiredInstanceExtensions ++ [VK_EXT_DEBUG_UTILS_EXTENSION_NAME]

/-- Inner loop of `vk::check_validation_layer_support`: the value of `found`
after the scan of the available layers. -/
def layer_found (name : String) : List VkLayerProperties → Bool
  | [] => false
  | props :: rest => if name = props.layerName then true else layer_found name rest

/-- Outer loop of `vk::check_validation_layer_support`. -/
def check_layers_loop (available_layers : List VkLayerProperties) : List String → Exec Bool
  | [] => pure true
  | name :: rest =>
    if !layer_found name available_layers then do
      log_error "Requested layer \x7b\x7d is unavailable" [.str name]
      pure false
    else check_layers_loop available_layers rest

/-- Function `vk::check_validation_layer_support` (`validation_layers.cpp`,
lines 20-50). -/
def check_validation_layer_support (host : Host) (layers : List String) : Exec Bool :=
  check_layers_loop host.vkEnumerateInstanceLayerProperties layers

/-- Function `vk::create_debug_utils_messenger_ext` (`validation_layers.cpp`,
lines 72-85): returns the result code,
and writes the messenger handle through `pDebugMessenger` when the function is
present. -/
def create_debug_utils_messenger_ext (host : Host) (inst : Handle) : Exec VkResult := do
  if host.vkGetInstanceProcAddr inst (STR "vkCreateDebugUtilsMessengerEXT") then
    emit (.vkCreateDebugUtilsMessengerEXT inst)
    modifyApp fun app =>
      { app with debug_messenger_ := (host.vkCreateDebugUtilsMessengerEXT inst).2 }
    pure (host.vkCreateDebugUtilsMessengerEXT inst).1
  else
    pure VK_ERROR_EXTENSION_NOT_PRESENT

/-- Function `vk::destroy_debug_utils_messenger_ext` (`validation_layers.cpp`,
lines 87-98). -/
def destroy_debug_utils_messenger_ext (host : Host) (inst debug_messenger : Handle) :
    Exec Unit :=
  if host.vkGetInstanceProcAddr inst (STR "vkDestroyDebugUtilsMessengerEXT") then
    emit (.vkDestroyDebugUtilsMessengerEXT inst debug_messenger)
  else
    log_fatal "Vulkan Extension not present" []

end vk

/-! ## `main.cpp` -/

/-- Loop of `find_queue_families`; `i` is the loop counter.  The vector holds
`queue_family_count` entries, a `u32`, so the counter does not wrap. -/
def find_queue_families_loop (host : Host) (device surface : Handle) :
    List VkQueueFamilyProperties → Nat → QueueFamilyIndices → QueueFamilyIndices
  | [], _, indices => indices
  | queue_family :: rest, i, indices =>
    let present_supported := host.vkGetPhysicalDeviceSurfaceSupportKHR device i surface
    let indices :=
      if present_supported ≠ 0 then { indices with present_family := some i } else indices
    if queue_family.queueFlags &&& VK_QUEUE_GRAPHICS_BIT ≠ 0 then
      { indices with graphics_family := some i }
    else
      find_queue_families_loop host device surface rest (i + 1) indices

/-- Function `find_queue_families` (`main.cpp`, lines 23-50). -/
def find_queue_families (host : Host) (device surface : Handle) : QueueFamilyIndices :=
  find_queue_families_loop host device surface
    (host.vkGetPhysicalDeviceQueueFamilyProperties device) 0
    { graphics_family := none, present_family := none }

namespace App

/-- The loop of `App::init` that prints the instance extensions. -/
def log_extensions : List VkExtensionProperties → Exec Unit
  | [] => pure ()
  | extension :: rest => do
    log_info "Found an extension: \x7b\x7d" [.str extension.extensionName]
    log_extensions rest

/-- Method `App::create_window` (`main.cpp`, lines 115-124). -/
def create_window (host : Host) (name : String) (width height : Nat) : Exec Window := do
  emit (.glfwCreateWindow (i32 width) (i32 height) name)
  pure
    { handle := host.glfwCreateWindow
      title := name
      width := width
      height := height
      vsync := true
      windowed := true }

/-- The call `::vkCreateInstance(&create_info, nullptr, &vk_instance_)`, made at
lines 172 and 174 of `main.cpp`. -/
def call_vkCreateInstance (host : Host) (layers extensions : List String) : Exec VkResult := do
  let earlier := (← getTrace).countP Event.isCreateInstance
  emit (.vkCreateInstance layers extensions)
  modifyApp fun app => { app with vk_instance_ := (host.vkCreateInstance earlier).2 }
  pure (host.vkCreateInstance earlier).1

/-- Method `App::init_vk` (`main.cpp`, lines 126-183). -/
def init_vk (host : Host) : Exec Unit := do
  log_info "Initializing Vulkan, Vulkan Version: 1.0.0" []
  modifyApp fun app => { app with layers_ := ["VK_LAYER_KHRONOS_validation"] }
  let layers_ := (← getApp).layers_
  if !(← vk.check_validation_layer_support host layers_) then
    leave .terminate
  let extensions := vk.required_extensions host
  let _result ← call_vkCreateInstance host layers_ extensions
  if (← call_vkCreateInstance host layers_ extensions) ≠ VK_SUCCESS then
    log_fatal "Failed to create Vulkan Instance" []
  let vk_instance_ := (← getApp).vk_instance_
  if (← vk.create_debug_utils_messenger_ext host vk_instance_) ≠ VK_SUCCESS then
    log_fatal "failed to set up debug messenger!" []

/-- Method `App::create_surface` (`main.cpp`, lines 185-197). -/
def create_surface (host : Host) : Exec Unit := do
  let app ← getApp
  emit (.vkCreateWin32SurfaceKHR app.vk_instance_ host.GetModuleHandle
    (host.glfwGetWin32Window app.main_window_.handle))
  modifyApp fun app => { app with surface_ := (host.vkCreateWin32SurfaceKHR app.vk_instance_).2 }
  if (host.vkCreateWin32SurfaceKHR app.vk_instance_).1 ≠ VK_SUCCESS then
    log_fatal "Failed to create window surface!" []
  log_info "Window surface created for \x7b\x7d" [.str app.main_window_.title]

/-- Method `App::is_device_suitable` (`main.cpp`, lines 232-245). -/
def is_device_suitable (host : Host) (device : Handle) : Exec Bool := do
  let props := host.vkGetPhysicalDeviceProperties device
  let features := host.vkGetPhysicalDeviceFeatures device
  log_info "Found Physical Device: \x7b\x7d" [.str props.deviceName]
  let indices := find_queue_families host device (← getApp).surface_
  pure (props.deviceType = VK_PHYSICAL_DEVICE_TYPE_DISCRETE_GPU
    && features.geometryShader ≠ 0 && indices.graphics_family.isSome)

/-- The loop of `App::pick_physical_device` over the enumerated devices. -/
def pick_physical_device_loop (host : Host) : List Handle → Exec Unit
  | [] => pure ()
  | device :: rest => do
    if (← is_device_suitable host device) then
      modifyApp fun app => { app with phys_device_ := device }
    else
      log_warn "Found device is not suitable" []
      pick_physical_device_loop host rest

/-- Method `App::pick_physical_device` (`main.cpp`, lines 199-230).  The two
calls of `vkEnumeratePhysicalDevices` are one read of the host; the `assert` is
compiled in unless `NDEBUG`. -/
def pick_physical_device (host : Host) : Exec Unit := do
  let devices := host.vkEnumeratePhysicalDevices (← getApp).vk_instance_
  let device_count := devices.length
  if !host.NDEBUG && device_count = 0 then
    leave .assert_failed
  if device_count = 0 then
    log_fatal "Failed to find GPUs with Vulkan support!" []
  pick_physical_device_loop host devices
  if (← getApp).phys_device_ = VK_NULL_HANDLE then
    log_fatal "Failed to find a suitable GPU!" []

/-- Method `App::create_logical_device` (`main.cpp`, lines 247-276). -/
def create_logical_device (host : Host) : Exec Unit := do
  let app ← getApp
  let indices := find_queue_families host app.phys_device_ app.surface_
  let queueFamilyIndex ← optional_value indices.graphics_family
  emit (.vkCreateDevice app.phys_device_ queueFamilyIndex app.layers_)
  modifyApp fun app => { app with device_ := (host.vkCreateDevice app.phys_device_).2 }
  if (host.vkCreateDevice app.phys_device_).1 ≠ VK_SUCCESS then
    log_fatal "Failed to create logical device!" []
  log_info "Logical device created" []
  let device_ := (← getApp).device_
  let family ← optional_value indices.graphics_family
  emit (.vkGetDeviceQueue device_ family 0)
  modifyApp fun app => { app with vk_queue_ := host.vkGetDeviceQueue device_ family 0 }

/-- Method `App::init` (`main.cpp`, lines 60-88). -/
def init (host : Host) : Exec Unit := do
  emit .glfwInit
  emit (.glfwWindowHint GLFW_CLIENT_API GLFW_NO_API)
  let extensions := host.vkEnumerateInstanceExtensionProperties
  log_extensions extensions
  log_info "\x7b\x7d available extensions" [.num extensions.length]
  let window ← create_window host "VulkanApp" 1280 720
  modifyApp fun app => { app with main_window_ := window }
  log_info "Window \x7b\x7d created" [.str (← getApp).main_window_.title]
  init_vk host
  create_surface host
  pick_physical_device host
  create_logical_device host

/-- Method `App::cleanup` (`main.cpp`, lines 98-108), which the destructor
`App::~App` calls. -/
def cleanup (host : Host) : Exec Unit := do
  log_info "Shutting down application..." []
  let app ← getApp
  vk.destroy_debug_utils_messenger_ext host app.vk_instance_ app.debug_messenger_
  emit (.vkDestroySurfaceKHR app.vk_instance_ app.surface_)
  emit (.vkDestroyDevice app.device_)
  emit (.vkDestroyInstance app.vk_instance_)
  emit (.glfwDestroyWindow app.main_window_.handle)
  emit .glfwTerminate

end App

/-- The members of a default-constructed `App` (the window is not initialised
by the class; its fields are taken as empty). -/
def App.fresh : App :=
  { vk_instance_ := VK_NULL_HANDLE
    phys_device_ := VK_NULL_HANDLE
    debug_messenger_ := VK_NULL_HANDLE
    device_ := VK_NULL_HANDLE
    vk_queue_ := VK_NULL_HANDLE
    vk_present_queue_ := VK_NULL_HANDLE
    surface_ := VK_NULL_HANDLE
    layers_ := []
    main_window_ :=
      { handle := 0, title := "", width := 0, height := 0, vsync := false, windowed := false } }

/-- The world of `main` when `app.init()` is called: a fresh object and the
line printed by `log_info("Starting up...")`. -/
def World.start : World :=
  { app := App.fresh, trace := [.log .info "Starting up..." []] }

/-! ## Concrete hosts -/

/-- A host on which every call succeeds.  It has one physical device (handle
`40`), a discrete GPU with the geometry shader feature, whose single queue
family does graphics and can present. -/
def Host.good : Host :=
  { NDEBUG := true
    vkEnumerateInstanceExtensionProperties :=
      [⟨"VK_KHR_surface"⟩, ⟨"VK_KHR_win32_surface"⟩, ⟨"VK_EXT_debug_utils"⟩]
    vkEnumerateInstanceLayerProperties := [⟨"VK_LAYER_KHRONOS_validation"⟩]
    glfwGetRequiredInstanceExtensions := ["VK_KHR_surface", "VK_KHR_win32_surface"]
    glfwCreateWindow := 10
    glfwGetWin32Window := fun _ => 11
    GetModuleHandle := 12
    vkCreateInstance := fun n => (VK_SUCCESS, 20 + n)
    vkGetInstanceProcAddr := fun _ _ => true
    vkCreateDebugUtilsMessengerEXT := fun _ => (VK_SUCCESS, 30)
    vkCreateWin32SurfaceKHR := fun _ => (VK_SUCCESS, 35)
    vkEnumeratePhysicalDevices := fun _ => [40]
    vkGetPhysicalDeviceProperties := fun _ =>
      { deviceType := VK_PHYSICAL_DEVICE_TYPE_DISCRETE_GPU, deviceName := "GPU" }
    vkGetPhysicalDeviceFeatures := fun _ => { geometryShader := 1 }
    vkGetPhysicalDeviceQueueFamilyProperties := fun _ =>
      [{ queueFlags := VK_QUEUE_GRAPHICS_BIT, queueCount := 1 }]
    vkGetPhysicalDeviceSurfaceSupportKHR := fun _ _ _ => 1
    vkCreateDevice := fun _ => (VK_SUCCESS, 50)
    vkGetDeviceQueue := fun _ _ _ => 60 }

/-- As `Host.good`, but with three physical devices, in this order: `41`, an
integrated GPU; `40`, a discrete GPU; `42`, a discrete GPU. -/
def Host.threeDevices : Host :=
  { Host.good with
    vkEnumeratePhysicalDevices := fun _ => [41, 40, 42]
    vkGetPhysicalDeviceProperties := fun device =>
      if device = 41 then
        { deviceType := VK_PHYSICAL_DEVICE_TYPE_INTEGRATED_GPU, deviceName := "iGPU" }
      else
        { deviceType := VK_PHYSICAL_DEVICE_TYPE_DISCRETE_GPU, deviceName := "GPU" } }

/-- As `Host.threeDevices`, but only the integrated GPU `41` is enumerated. -/
def Host.integratedOnly : Host :=
  { Host.threeDevices with vkEnumeratePhysicalDevices := fun _ => [41] }

/-- As `Host.good`, but the creation of the debug messenger fails. -/
def Host.messengerFails : Host :=
  { Host.good with
    vkCreateDebugUtilsMessengerEXT := fun _ => (VK_ERROR_OUT_OF_HOST_MEMORY, 0) }

/-- As `Host.good`, but `vkGetInstanceProcAddr` finds a command on an instance
only, and nothing on `VK_NULL_HANDLE`, which is how the Vulkan loader answers
for the commands of an extension. -/
def Host.loader : Host :=
  { Host.good with vkGetInstanceProcAddr := fun inst _ => inst != VK_NULL_HANDLE }

/-- As `Host.good`, but `vkGetInstanceProcAddr` finds neither command of
`VK_EXT_debug_utils`, on any instance. -/
def Host.noDebugUtils : Host :=
  { Host.good with vkGetInstanceProcAddr := fun _ _ => false }

/-- As `Host.good`, but the device has a graphics family (index 0) that cannot
present, followed by a transfer family (index 1) that can. -/
def Host.presentAfterGraphics : Host :=
  { Host.good with
    vkGetPhysicalDeviceQueueFamilyProperties := fun _ =>
      [{ queueFlags := VK_QUEUE_GRAPHICS_BIT, queueCount := 1 },
       { queueFlags := VK_QUEUE_TRANSFER_BIT, queueCount := 1 }]
    vkGetPhysicalDeviceSurfaceSupportKHR := fun _ i _ => if i = 1 then 1 else 0 }

/-! ## Abbreviations used in the statements -/

/-- The line printed by `is_device_suitable` for `device`. -/
def found_line (host : Host) (device : Handle) : Event :=
  .log .info "Found Physical Device: \x7b\x7d"
    [.str (host.vkGetPhysicalDeviceProperties device).deviceName]

/-- The line printed by `pick_physical_device` for a device that is not suitable. -/
def warn_line : Event := .log .warn "Found device is not suitable" []

/-- Whether an event is a call of `vkDestroyDebugUtilsMessengerEXT`. -/
def Event.isDestroyMessenger : Event → Bool
  | .vkDestroyDebugUtilsMessengerEXT _ _ => true
  | _ => false

/-- Whether an event is a call of `vkCreateDebugUtilsMessengerEXT`. -/
def Event.isCreateMessenger : Event → Bool
  | .vkCreateDebugUtilsMessengerEXT _ => true
  | _ => false

/-- Whether an event is a call of `vkDestroyInstance`. -/
def Event.isDestroyInstance : Event → Bool
  | .vkDestroyInstance _ => true
  | _ => false

/-- Whether an event is a call of `vkDestroySurfaceKHR`. -/
def Event.isDestroySurface : Event → Bool
  | .vkDestroySurfaceKHR _ _ => true
  | _ => false

/-- Whether an event is a call of `vkDestroyDevice`. -/
def Event.isDestroyDevice : Event → Bool
  | .vkDestroyDevice _ => true
  | _ => false

/-- Whether an event is a call of `glfwDestroyWindow` or `glfwTerminate`. -/
def Event.isGlfwTeardown : Event → Bool
  | .glfwDestroyWindow _ => true
  | .glfwTerminate => true
  | _ => false

/-- What a world holds about the debug messenger: the instance, the messenger
handle, and the messenger creations made so far. -/
def World.messengerView (w : World) : Handle × Handle × List Event :=
  (w.app.vk_instance_, w.app.debug_messenger_, w.trace.filter Event.isCreateMessenger)

/-- The answer to the lookup that `vk::destroy_debug_utils_messenger_ext` makes
when `App::cleanup` runs in the world `w`. -/
def destroy_lookup (host : Host) (w : World) : Bool :=
  host.vkGetInstanceProcAddr w.app.vk_instance_ (STR "vkDestroyDebugUtilsMessengerEXT")

/-- The host resolves the two commands of `VK_EXT_debug_utils` that the program
looks up alike: on every instance it finds both or neither. -/
def Host.lookupsAgree (host : Host) : Prop :=
  ∀ inst, host.vkGetInstanceProcAddr inst (STR "vkCreateDebugUtilsMessengerEXT")
    = host.vkGetInstanceProcAddr inst (STR "vkDestroyDebugUtilsMessengerEXT")

/-- The events of the run of `App::cleanup` that starts in the world `w`. -/
def App.cleanup_events (host : Host) (w : World) : List Event :=
  (App.cleanup host w).2.trace.drop w.trace.length

/-- The events of a run that come before its first `vkDestroyInstance`. -/
def before_instance_destroyed (events : List Event) : List Event :=
  events.takeWhile fun e => !e.isDestroyInstance

/-- Whether an event is one of the setup calls of `App::init`: window, instance,
debug messenger, surface and device creation, and queue retrieval. -/
def Event.isSetupCall : Event → Bool
  | .glfwCreateWindow _ _ _ => true
  | .vkCreateInstance _ _ => true
  | .vkCreateDebugUtilsMessengerEXT _ => true
  | .vkCreateWin32SurfaceKHR _ _ _ => true
  | .vkCreateDevice _ _ _ => true
  | .vkGetDeviceQueue _ _ _ => true
  | _ => false


/-! ## Lemmas on the string functions -/

theorem exists_first_split {α : Type} [DecidableEq α] (x : α) :
    ∀ l : List α, x ∈ l → ∃ a b, l = a ++ x :: b ∧ x ∉ a
  | [], h => by simp at h
  | y :: ys, h => by
    by_cases hxy : x = y
    · exact ⟨[], ys, by simp [hxy], by simp⟩
    · have hmem : x ∈ ys := by
        rcases List.mem_cons.mp h with h1 | h1
        · exact absurd h1 hxy
        · exact h1
      obtain ⟨a, b, hab, hna⟩ := exists_first_split x ys hmem
      refine ⟨y :: a, b, by simp [hab], ?_⟩
      intro hin
      rcases List.mem_cons.mp hin with h1 | h1
      · exact hxy h1
      · exact hna h1

theorem exists_last_split {α : Type} [DecidableEq α] (x : α) :
    ∀ l : List α, x ∈ l → ∃ a b, l = a ++ x :: b ∧ x ∉ b
  | [], h => by simp at h
  | y :: ys, h => by
    by_cases hmem : x ∈ ys
    · obtain ⟨a, b, hab, hnb⟩ := exists_last_split x ys hmem
      exact ⟨y :: a, b, by simp [hab], hnb⟩
    · have hxy : x = y := by
        rcases List.mem_cons.mp h with h1 | h1
        · exact h1
        · exact absurd h1 hmem
      exact ⟨[], ys, by simp [hxy], hmem⟩

theorem find_first_of_loop_split (chars : List Char) (c : Char) (post : List Char)
    (hc : chars.elem c = true) :
    ∀ (a : List Char) (i : Nat), (∀ x ∈ a, chars.elem x = false) →
      find_first_of_loop chars (a ++ c :: post) i = i + a.length
  | [], i, _ => by simp only [List.nil_append, find_first_of_loop, hc, if_true, List.length_nil, Nat.add_zero]
  | y :: ys, i, h => by
    have hy : chars.elem y = false := h y (by simp)
    have ih := find_first_of_loop_split chars c post hc ys (i + 1)
      (fun x hx => h x (by simp [hx]))
    simp only [List.cons_append, find_first_of_loop, hy, Bool.false_eq_true, if_false,
      List.length_cons]
    have ih2 : find_first_of_loop chars (ys.append (c :: post)) (i + 1) = i + 1 + ys.length := ih
    rw [ih2]
    omega

theorem find_last_of_loop_found (s chars : List Char) (k : Nat)
    (hk : (s[k]?).any (fun c => chars.elem c) = true) :
    ∀ i : Nat, k ≤ i →
      (∀ j, k < j → j ≤ i → (s[j]?).any (fun c => chars.elem c) = false) →
      find_last_of_loop s chars i = k
  | 0, hki, _ => by
    have : k = 0 := by omega
    subst this
    simp only [find_last_of_loop, hk, if_true]
  | i + 1, hki, h => by
    by_cases heq : k = i + 1
    · subst heq
      simp only [find_last_of_loop, hk, if_true]
    · have hi : (s[i + 1]?).any (fun c => chars.elem c) = false := h (i + 1) (by omega) (by omega)
      have ih := find_last_of_loop_found s chars k hk i (by omega)
        (fun j h1 h2 => h j h1 (by omega))
      simp only [find_last_of_loop, hi, Bool.false_eq_true, if_false, ih]

theorem find_last_of_loop_none (s chars : List Char) :
    ∀ i : Nat, (∀ j, j ≤ i → (s[j]?).any (fun c => chars.elem c) = false) →
      find_last_of_loop s chars i = npos
  | 0, h => by
    have h0 := h 0 (by omega)
    simp only [find_last_of_loop, h0, Bool.false_eq_true, if_false]
  | i + 1, h => by
    have hi := h (i + 1) (by omega)
    have ih := find_last_of_loop_none s chars i (fun j hj => h j (by omega))
    simp only [find_last_of_loop, hi, Bool.false_eq_true, if_false, ih]

theorem size_add_one_of_lt (n : Nat) (h : n + 1 < SIZE_MOD) : size_add n 1 = n + 1 := by
  unfold size_add
  exact Nat.mod_eq_of_lt h

theorem size_add_npos_one : size_add npos 1 = 0 := by decide

theorem size_sub_of_le (a b : Nat) (hab : b ≤ a) (ha : a < SIZE_MOD) : size_sub a b = a - b := by
  unfold size_sub
  have hb : b % SIZE_MOD = b := Nat.mod_eq_of_lt (by omega)
  rw [hb]
  have h1 : a + SIZE_MOD - b = (a - b) + SIZE_MOD := by omega
  rw [h1, Nat.add_mod_right]
  exact Nat.mod_eq_of_lt (by omega)

theorem size_sub_npos (a : Nat) (ha : a + 1 < SIZE_MOD) : size_sub a npos = a + 1 := by
  unfold size_sub npos
  have hpos : 0 < SIZE_MOD := by decide
  have hb : (SIZE_MOD - 1) % SIZE_MOD = SIZE_MOD - 1 := Nat.mod_eq_of_lt (by omega)
  rw [hb]
  have h1 : a + SIZE_MOD - (SIZE_MOD - 1) = a + 1 := by omega
  rw [h1]
  exact Nat.mod_eq_of_lt ha

theorem any_at_middle_false (f : Char → Bool) (pre l t : List Char) (j : Nat)
    (h1 : pre.length ≤ j) (h2 : j < pre.length + l.length) (hl : ∀ x ∈ l, f x = false) :
    ((pre ++ (l ++ t))[j]?).any f = false := by
  rw [List.getElem?_append_right h1]
  have hj : j - pre.length < l.length := by omega
  rw [List.getElem?_append_left hj, List.getElem?_eq_getElem hj]
  exact hl _ (List.getElem_mem hj)

theorem any_at_split_true (f : Char → Bool) (pre t : List Char) (c : Char) (hc : f c = true) :
    ((pre ++ c :: t)[pre.length]?).any f = true := by
  rw [List.getElem?_append_right (Nat.le_refl _)]
  simpa using hc

/-- Claim C10: for a text `fn` that contains `'('` (and is shorter than `2 ^ 64`,
as every `std::string_view` is), `func_sig fn` is the part of
`fn` strictly between the last space that precedes the first `'('` and that
`'('`, or the whole prefix before the first `'('` when no space precedes it (the
index arithmetic then wraps around).  So `fn = pre ++ func_sig fn ++ '(' :: post`
where `pre` has no `'('` and is empty or ends in a space, and `func_sig fn`
contains neither a space nor a `'('`. -/
theorem func_sig_spec (fn : List Char) (hlen : fn.length < SIZE_MOD) (h : '(' ∈ fn) :
    ∃ pre post, fn = pre ++ func_sig fn ++ '(' :: post ∧
      '(' ∉ pre ∧ '(' ∉ func_sig fn ∧ ' ' ∉ func_sig fn ∧
      (pre = [] ∨ ∃ p, pre = p ++ [' ']) := by
  obtain ⟨a, post, hfn, hna⟩ := exists_first_split '(' fn h
  have hfinish : find_first_of fn ['('] = a.length := by
    unfold find_first_of
    rw [hfn, find_first_of_loop_split ['('] '(' post (by decide) a 0]
    · omega
    · intro x hx
      have : x ≠ '(' := fun e => hna (e ▸ hx)
      simpa using this
  have hfl : fn.length = a.length + 1 + post.length := by
    rw [hfn, List.length_append, List.length_cons]
    omega
  have hlen2 : a.length + 1 + post.length < SIZE_MOD := by omega
  have hmin : min (fn.length - 1) a.length = a.length := by omega
  have hne : ¬ (fn.length = 0 ∨ [' '].length = 0) := by
    simp only [List.length_singleton]
    omega
  by_cases hsp : ' ' ∈ a
  · obtain ⟨p, r, har, hnr⟩ := exists_last_split ' ' a hsp
    have hfn2 : fn = p ++ ' ' :: (r ++ '(' :: post) := by rw [hfn, har]; simp
    have halen : a.length = p.length + 1 + r.length := by rw [har]; simp; omega
    have hstart : find_last_of fn [' '] a.length = p.length := by
      unfold find_last_of
      rw [if_neg hne, hmin]
      apply find_last_of_loop_found
      · rw [hfn2]; exact any_at_split_true _ p _ ' ' (by decide)
      · omega
      · intro j hj1 hj2
        have hfn3 : fn = (p ++ [' ']) ++ ((r ++ ['(']) ++ post) := by rw [hfn2]; simp
        rw [hfn3]
        apply any_at_middle_false
        · simp; omega
        · simp; omega
        · intro x hx
          have hx2 : x ≠ ' ' := by
            rcases List.mem_append.mp hx with h1 | h1
            · exact fun e => hnr (e ▸ h1)
            · simp at h1; rw [h1]; decide
          simpa using hx2
    have hres : func_sig fn = r := by
      unfold func_sig
      simp only [hfinish, hstart]
      rw [size_add_one_of_lt _ (by omega), size_sub_of_le a.length p.length (by omega) (by omega),
        size_sub_of_le _ 1 (by omega) (by omega)]
      unfold string_view_at
      have hd : List.drop (p.length + 1) fn = r ++ '(' :: post := by
        have hfn3 : fn = (p ++ [' ']) ++ (r ++ '(' :: post) := by rw [hfn2]; simp
        rw [hfn3]
        have : (p ++ [' ']).length = p.length + 1 := by simp
        rw [← this, List.drop_left]
      rw [hd]
      have : a.length - p.length - 1 = r.length := by omega
      rw [this, List.take_left]
    refine ⟨p ++ [' '], post, ?_, ?_, ?_, ?_, Or.inr ⟨p, rfl⟩⟩
    · rw [hres, hfn2]; simp
    · intro hin
      apply hna
      rw [har]
      rcases List.mem_append.mp hin with h1 | h1
      · exact List.mem_append_left _ h1
      · simp at h1
    · rw [hres]
      intro hin
      apply hna
      rw [har]
      exact List.mem_append_right _ (List.mem_cons_of_mem _ hin)
    · rw [hres]; exact hnr
  · have hstart : find_last_of fn [' '] a.length = npos := by
      unfold find_last_of
      rw [if_neg hne, hmin]
      apply find_last_of_loop_none
      intro j hj
      have hfn3 : fn = [] ++ ((a ++ ['(']) ++ post) := by rw [hfn]; simp
      rw [hfn3]
      apply any_at_middle_false
      · simp
      · simp; omega
      · intro x hx
        have hx2 : x ≠ ' ' := by
          rcases List.mem_append.mp hx with h1 | h1
          · exact fun e => hsp (e ▸ h1)
          · simp at h1; rw [h1]; decide
        simpa using hx2
    have hres : func_sig fn = a := by
      unfold func_sig
      simp only [hfinish, hstart]
      rw [size_add_npos_one, size_sub_npos _ (by omega), size_sub_of_le _ 1 (by omega) (by omega)]
      unfold string_view_at
      rw [hfn]
      simp
    refine ⟨[], post, ?_, by simp, ?_, ?_, Or.inl rfl⟩
    · rw [hres]; simpa using hfn
    · rw [hres]; exact hna
    · rw [hres]; exact hsp

theorem find_last_of_absent (s chars : List Char) (pos : Nat)
    (h : ∀ c ∈ s, chars.elem c = false) : find_last_of s chars pos = npos := by
  unfold find_last_of
  split
  · rfl
  · apply find_last_of_loop_none
    intro j _
    cases hj : s[j]? with
    | none => rfl
    | some c => exact h c (List.getElem?_mem hj)

/-- What `filename` does on a path without `'/'`: it returns the path without
its last character. -/
theorem filename_without_slash (file : List Char) (hlen : file.length < SIZE_MOD)
    (h : '/' ∉ file) : filename file = some file.dropLast := by
  have hlast : find_last_of file ['/'] npos = npos := by
    apply find_last_of_absent
    intro c hc
    have : c ≠ '/' := fun e => h (e ▸ hc)
    simpa using this
  unfold filename
  rw [hlast, size_add_npos_one]
  cases file with
  | nil => decide
  | cons x xs =>
    rw [size_sub_of_le _ 1 (by simp) hlen]
    simp [substr, List.dropLast_eq_take]

/-- What `filename` does on a path with a `'/'`: it returns the text after the
last `'/'`. -/
theorem filename_after_last_slash (dir base : List Char)
    (hlen : (dir ++ '/' :: base).length < SIZE_MOD) (h : '/' ∉ base) :
    filename (dir ++ '/' :: base) = some base := by
  have hl : (dir ++ '/' :: base).length = dir.length + 1 + base.length := by
    rw [List.length_append, List.length_cons]; omega
  have hlast : find_last_of (dir ++ '/' :: base) ['/'] npos = dir.length := by
    unfold find_last_of
    have hne : ¬ ((dir ++ '/' :: base).length = 0 ∨ ['/'].length = 0) := by
      simp only [List.length_singleton]; omega
    have hmin : min ((dir ++ '/' :: base).length - 1) npos = dir.length + base.length := by
      have : npos = SIZE_MOD - 1 := rfl
      omega
    rw [if_neg hne, hmin]
    apply find_last_of_loop_found
    · exact any_at_split_true _ dir _ '/' (by decide)
    · omega
    · intro j hj1 hj2
      have e : dir ++ '/' :: base = (dir ++ ['/']) ++ (base ++ []) := by simp
      rw [e]
      apply any_at_middle_false
      · simp; omega
      · simp; omega
      · intro c hc
        have : c ≠ '/' := fun e => h (e ▸ hc)
        simpa using this
  unfold filename
  rw [hlast, size_add_one_of_lt _ (by omega), size_sub_of_le _ 1 (by omega) hlen]
  unfold substr
  have hnot : ¬ dir.length + 1 > (dir ++ '/' :: base).length := by omega
  rw [if_neg hnot]
  have hd : List.drop (dir.length + 1) (dir ++ '/' :: base) = base := by
    have e : dir ++ '/' :: base = (dir ++ ['/']) ++ base := by simp
    have hlen2 : (dir ++ ['/']).length = dir.length + 1 := by simp
    rw [e, ← hlen2, List.drop_left]
  rw [hd]
  have hm : min ((dir ++ '/' :: base).length - 1) ((dir ++ '/' :: base).length - (dir.length + 1))
      = base.length := by omega
  rw [hm, List.take_length]

/-! ## Lemmas on the execution monad and the layer check -/

@[simp] theorem run_bind {α β : Type} (m : Exec α) (f : α → Exec β) (w : World) :
    (m >>= f) w = match m w with
      | (.ok a, w1) => f a w1
      | (.error e, w1) => (.error e, w1) := rfl

@[simp] theorem run_pure {α : Type} (a : α) (w : World) :
    (pure a : Exec α) w = (.ok a, w) := rfl

@[simp] theorem run_Exec_pure {α : Type} (a : α) (w : World) :
    Exec.pure a w = (.ok a, w) := rfl

@[simp] theorem emit_apply (e : Event) (w : World) :
    emit e w = (.ok (), { w with trace := w.trace ++ [e] }) := rfl

@[simp] theorem leave_apply {α : Type} (e : Exit) (w : World) :
    (leave e : Exec α) w = (.error e, w) := rfl

@[simp] theorem getApp_apply (w : World) : getApp w = (.ok w.app, w) := rfl

@[simp] theorem getTrace_apply (w : World) : getTrace w = (.ok w.trace, w) := rfl

@[simp] theorem modifyApp_apply (f : App → App) (w : World) :
    modifyApp f w = (.ok (), { w with app := f w.app }) := rfl

@[simp] theorem log_info_apply (fmt : String) (args : List FmtArg) (w : World) :
    log_info fmt args w = (.ok (), { w with trace := w.trace ++ [.log .info fmt args] }) := rfl

@[simp] theorem log_warn_apply (fmt : String) (args : List FmtArg) (w : World) :
    log_warn fmt args w = (.ok (), { w with trace := w.trace ++ [.log .warn fmt args] }) := rfl

@[simp] theorem log_error_apply (fmt : String) (args : List FmtArg) (w : World) :
    log_error fmt args w = (.ok (), { w with trace := w.trace ++ [.log .error fmt args] }) := rfl

@[simp] theorem log_fatal_apply (fmt : String) (args : List FmtArg) (w : World) :
    log_fatal fmt args w = (.ok (), { w with trace := w.trace ++ [.log .fatal fmt args] }) := rfl

@[simp] theorem run_ite {α : Type} (c : Prop) [Decidable c] (m1 m2 : Exec α) (w : World) :
    (if c then m1 else m2) w = if c then m1 w else m2 w := by
  split <;> rfl

theorem layer_found_iff (name : String) :
    ∀ available : List VkLayerProperties,
      vk.layer_found name available = true ↔ ∃ props ∈ available, name = props.layerName
  | [] => by simp [vk.layer_found]
  | p :: rest => by
    have ih := layer_found_iff name rest
    by_cases h : name = p.layerName
    · simp [vk.layer_found, h]
    · simp [vk.layer_found, h, ih]

theorem check_layers_loop_all (available : List VkLayerProperties) :
    ∀ (layers : List String) (w : World),
      (∀ n ∈ layers, vk.layer_found n available = true) →
      vk.check_layers_loop available layers w = (.ok true, w)
  | [], w, _ => by simp [vk.check_layers_loop]
  | n :: rest, w, h => by
    have hn : vk.layer_found n available = true := h n (by simp)
    have ih := check_layers_loop_all available rest w (fun m hm => h m (by simp [hm]))
    simp [vk.check_layers_loop, hn, ih]

theorem check_layers_loop_missing (available : List VkLayerProperties) (name : String)
    (post : List String) (hname : vk.layer_found name available = false) :
    ∀ (pre : List String) (w : World),
      (∀ n ∈ pre, vk.layer_found n available = true) →
      vk.check_layers_loop available (pre ++ name :: post) w =
        (.ok false, { w with trace := w.trace ++
          [.log .error "Requested layer \x7b\x7d is unavailable" [.str name]] })
  | [], w, _ => by simp [vk.check_layers_loop, hname]
  | n :: rest, w, h => by
    have hn : vk.layer_found n available = true := h n (by simp)
    have ih := check_layers_loop_missing available name post hname rest w
      (fun m hm => h m (by simp [hm]))
    simp [vk.check_layers_loop, hn, ih]

theorem exists_first_failing {α : Type} (p : α → Bool) :
    ∀ l : List α, (∃ x ∈ l, p x = false) →
      ∃ pre x post, l = pre ++ x :: post ∧ (∀ y ∈ pre, p y = true) ∧ p x = false
  | [], h => by simp at h
  | y :: ys, h => by
    by_cases hy : p y = true
    · have h2 : ∃ x ∈ ys, p x = false := by
        obtain ⟨x, hx, hpx⟩ := h
        rcases List.mem_cons.mp hx with h1 | h1
        · rw [h1, hy] at hpx; exact absurd hpx (by simp)
        · exact ⟨x, h1, hpx⟩
      obtain ⟨pre, x, post, hl, hpre, hx⟩ := exists_first_failing p ys h2
      refine ⟨y :: pre, x, post, by simp [hl], ?_, hx⟩
      intro z hz
      rcases List.mem_cons.mp hz with h1 | h1
      · rw [h1]; exact hy
      · exact hpre z h1
    · exact ⟨[], y, ys, rfl, by simp, by simpa using hy⟩

/-- Claim C3: `vk::check_validation_layer_support` always returns, and it returns
`true` exactly when every requested name is the `layerName` of some available
layer.  For the empty request it returns `true` and prints nothing.  When a
requested name is missing and all names before it are available, it returns
`false` at that name: the only line printed is the error for that name, and the
names after it are not examined. -/
theorem check_validation_layer_support_iff (host : Host) (layers : List String) (w : World) :
    (∃ b, (vk.check_validation_layer_support host layers w).1 = .ok b ∧
      (b = true ↔ ∀ name ∈ layers,
        ∃ props ∈ host.vkEnumerateInstanceLayerProperties, name = props.layerName)) ∧
    vk.check_validation_layer_support host [] w = (.ok true, w) ∧
    (∀ pre name post, layers = pre ++ name :: post →
      (∀ n ∈ pre, ∃ props ∈ host.vkEnumerateInstanceLayerProperties, n = props.layerName) →
      (¬ ∃ props ∈ host.vkEnumerateInstanceLayerProperties, name = props.layerName) →
      vk.check_validation_layer_support host layers w =
        (.ok false, { w with trace := w.trace ++
          [.log .error "Requested layer \x7b\x7d is unavailable" [.str name]] })) := by
  have key : ∀ pre name post, layers = pre ++ name :: post →
      (∀ n ∈ pre, ∃ props ∈ host.vkEnumerateInstanceLayerProperties, n = props.layerName) →
      (¬ ∃ props ∈ host.vkEnumerateInstanceLayerProperties, name = props.layerName) →
      vk.check_validation_layer_support host layers w =
        (.ok false, { w with trace := w.trace ++
          [.log .error "Requested layer \x7b\x7d is unavailable" [.str name]] }) := by
    intro pre name post hl hpre hname
    unfold vk.check_validation_layer_support
    rw [hl]
    apply check_layers_loop_missing
    · cases hf : vk.layer_found name host.vkEnumerateInstanceLayerProperties
      · rfl
      · exact absurd ((layer_found_iff _ _).mp hf) hname
    · intro n hn
      exact (layer_found_iff _ _).mpr (hpre n hn)
  refine ⟨?_, ?_, key⟩
  · by_cases hall : ∀ name ∈ layers,
        ∃ props ∈ host.vkEnumerateInstanceLayerProperties, name = props.layerName
    · refine ⟨true, ?_, by simpa using hall⟩
      unfold vk.check_validation_layer_support
      rw [check_layers_loop_all _ _ _ (fun n hn => (layer_found_iff _ _).mpr (hall n hn))]
    · refine ⟨false, ?_, by simp [hall]⟩
      have hex : ∃ x ∈ layers,
          (fun n => vk.layer_found n host.vkEnumerateInstanceLayerProperties) x = false := by
        by_contra hcon
        apply hall
        intro name hname
        apply (layer_found_iff _ _).mp
        cases hf : vk.layer_found name host.vkEnumerateInstanceLayerProperties
        · exact absurd ⟨name, hname, hf⟩ hcon
        · rfl
      obtain ⟨pre, x, post, hl, hpre, hx⟩ := exists_first_failing _ layers hex
      rw [key pre x post hl (fun n hn => (layer_found_iff _ _).mp (hpre n hn))
        (fun hc => by
          have := (layer_found_iff _ _).mpr hc
          rw [hx] at this
          exact absurd this (by simp))]
  · simp [vk.check_validation_layer_support, vk.check_layers_loop]



/-- Whatever `vkCreateInstance` and the creation of the debug messenger answer,
`App::init_vk` returns normally once the validation layer is available, and it
has called `vkCreateInstance` twice. -/
theorem init_vk_falls_through (host : Host) (w : World)
    (hlayer : ∃ props ∈ host.vkEnumerateInstanceLayerProperties,
      "VK_LAYER_KHRONOS_validation" = props.layerName) :
    (App.init_vk host w).1 = .ok () ∧
    ((App.init_vk host w).2.trace.filter Event.isCreateInstance).length
      = (w.trace.filter Event.isCreateInstance).length + 2 := by
  have hfound : vk.layer_found "VK_LAYER_KHRONOS_validation"
      host.vkEnumerateInstanceLayerProperties = true := (layer_found_iff _ _).mpr hlayer
  simp only [App.init_vk, run_bind, log_info_apply, modifyApp_apply, getApp_apply,
    vk.check_validation_layer_support, vk.check_layers_loop, hfound, Bool.not_true,
    Bool.false_eq_true, if_false, run_pure, App.call_vkCreateInstance, getTrace_apply,
    emit_apply, vk.create_debug_utils_messenger_ext, run_ite, log_fatal_apply]
  split_ifs <;> simp_all [Event.isCreateInstance] <;> split_ifs <;> simp [Event.isCreateInstance]

/-! ## Lemmas on queue families, device selection and cleanup -/

theorem find_queue_families_loop_graphics_isSome (host : Host) (device surface : Handle) :
    ∀ (families : List VkQueueFamilyProperties) (i : Nat) (indices : QueueFamilyIndices),
      (find_queue_families_loop host device surface families i indices).graphics_family.isSome
        = (indices.graphics_family.isSome ||
            families.any fun qf => decide (qf.queueFlags &&& VK_QUEUE_GRAPHICS_BIT ≠ 0))
  | [], i, indices => by simp [find_queue_families_loop]
  | qf :: rest, i, indices => by
    have ih := find_queue_families_loop_graphics_isSome host device surface rest (i + 1)
    by_cases hg : qf.queueFlags &&& VK_QUEUE_GRAPHICS_BIT = 0
    · by_cases hp : host.vkGetPhysicalDeviceSurfaceSupportKHR device i surface = 0
      · simp [find_queue_families_loop, hg, hp, ih]
      · simp [find_queue_families_loop, hg, hp, ih]
    · simp [find_queue_families_loop, hg]

/-- The loop of `find_queue_families` does not look past the first graphics
family. -/
theorem find_queue_families_loop_stops (host : Host) (device surface : Handle)
    (g : VkQueueFamilyProperties) (post : List VkQueueFamilyProperties)
    (hg : g.queueFlags &&& VK_QUEUE_GRAPHICS_BIT ≠ 0) :
    ∀ (pre : List VkQueueFamilyProperties) (i : Nat) (indices : QueueFamilyIndices),
      (∀ q ∈ pre, q.queueFlags &&& VK_QUEUE_GRAPHICS_BIT = 0) →
      find_queue_families_loop host device surface (pre ++ g :: post) i indices =
        find_queue_families_loop host device surface (pre ++ [g]) i indices
  | [], i, indices, _ => by
    simp only [List.nil_append, find_queue_families_loop, hg, if_true, ne_eq, not_false_eq_true]
  | q :: rest, i, indices, h => by
    have hq : q.queueFlags &&& VK_QUEUE_GRAPHICS_BIT = 0 := h q (by simp)
    have ih := find_queue_families_loop_stops host device surface g post hg rest (i + 1)
    rw [List.cons_append, List.cons_append]
    simp only [find_queue_families_loop, hq, ne_eq, not_true_eq_false, if_false]
    exact ih _ (fun r hr => h r (by simp [hr]))

theorem find_queue_families_loop_graphics_index (host : Host) (device surface : Handle) :
    ∀ (families : List VkQueueFamilyProperties) (i : Nat) (indices : QueueFamilyIndices),
      (find_queue_families_loop host device surface families i indices).graphics_family =
        ((families.findIdx? (fun qf => decide (qf.queueFlags &&& VK_QUEUE_GRAPHICS_BIT ≠ 0)) i).or
          indices.graphics_family)
  | [], i, indices => by simp [find_queue_families_loop]
  | qf :: rest, i, indices => by
    have ih := find_queue_families_loop_graphics_index host device surface rest (i + 1)
    by_cases hg : qf.queueFlags &&& VK_QUEUE_GRAPHICS_BIT = 0
    · by_cases hp : host.vkGetPhysicalDeviceSurfaceSupportKHR device i surface = 0
      · simp [find_queue_families_loop, hg, hp, ih]
      · simp [find_queue_families_loop, hg, hp, ih]
    · simp [find_queue_families_loop, hg]

/-- The graphics family reported by `find_queue_families` is the index of the
first queue family with `VK_QUEUE_GRAPHICS_BIT`, and empty when there is none. -/
theorem find_queue_families_graphics_index (host : Host) (device surface : Handle) :
    (find_queue_families host device surface).graphics_family =
      (host.vkGetPhysicalDeviceQueueFamilyProperties device).findIdx?
        (fun qf => decide (qf.queueFlags &&& VK_QUEUE_GRAPHICS_BIT ≠ 0)) := by
  unfold find_queue_families
  rw [find_queue_families_loop_graphics_index]
  simp

theorem find_queue_families_graphics_isSome (host : Host) (device surface : Handle) :
    (find_queue_families host device surface).graphics_family.isSome
      = (host.vkGetPhysicalDeviceQueueFamilyProperties device).any
          fun qf => decide (qf.queueFlags &&& VK_QUEUE_GRAPHICS_BIT ≠ 0) := by
  unfold find_queue_families
  rw [find_queue_families_loop_graphics_isSome]
  simp

theorem is_device_suitable_apply (host : Host) (device : Handle) (w : World) :
    App.is_device_suitable host device w =
      (.ok (decide ((host.vkGetPhysicalDeviceProperties device).deviceType
              = VK_PHYSICAL_DEVICE_TYPE_DISCRETE_GPU)
            && decide ((host.vkGetPhysicalDeviceFeatures device).geometryShader ≠ 0)
            && (find_queue_families host device w.app.surface_).graphics_family.isSome),
        { w with trace := w.trace ++ [found_line host device] }) := by
  simp [App.is_device_suitable, found_line]

theorem is_device_suitable_fst_congr (host : Host) (device : Handle) (w w' : World)
    (h : w.app.surface_ = w'.app.surface_) :
    (App.is_device_suitable host device w).1 = (App.is_device_suitable host device w').1 := by
  rw [is_device_suitable_apply, is_device_suitable_apply, h]

/-- Claim C5: `App::is_device_suitable` always returns, and it returns `true`
exactly when the device type is a discrete GPU, the `geometryShader` feature is
set and `find_queue_families` reports a graphics family, which it does exactly
when some queue family of the device has `VK_QUEUE_GRAPHICS_BIT`.  Replacing the
presentation-support answers of the host by any others changes neither the
result nor the line printed. -/
theorem is_device_suitable_iff (host : Host) (device : Handle) (w : World) :
    (∃ b, (App.is_device_suitable host device w).1 = .ok b ∧
      (b = true ↔
        (host.vkGetPhysicalDeviceProperties device).deviceType
          = VK_PHYSICAL_DEVICE_TYPE_DISCRETE_GPU ∧
        (host.vkGetPhysicalDeviceFeatures device).geometryShader ≠ 0 ∧
        (find_queue_families host device w.app.surface_).graphics_family.isSome = true)) ∧
    ((find_queue_families host device w.app.surface_).graphics_family.isSome = true ↔
      ∃ qf ∈ host.vkGetPhysicalDeviceQueueFamilyProperties device,
        qf.queueFlags &&& VK_QUEUE_GRAPHICS_BIT ≠ 0) ∧
    (∀ present : Handle → Nat → Handle → VkBool32,
      App.is_device_suitable { host with vkGetPhysicalDeviceSurfaceSupportKHR := present }
        device w = App.is_device_suitable host device w) := by
  refine ⟨⟨_, by rw [is_device_suitable_apply], ?_⟩, ?_, ?_⟩
  · simp [and_assoc]
  · rw [find_queue_families_graphics_isSome]
    simp
  · intro present
    rw [is_device_suitable_apply, is_device_suitable_apply]
    have h1 := find_queue_families_graphics_isSome
      { host with vkGetPhysicalDeviceSurfaceSupportKHR := present } device w.app.surface_
    have h2 := find_queue_families_graphics_isSome host device w.app.surface_
    simp only [h1, h2, found_line]

theorem pick_loop_unsuitable (host : Host) :
    ∀ (l : List Handle) (w : World),
      (∀ x ∈ l, (App.is_device_suitable host x w).1 = .ok false) →
      App.pick_physical_device_loop host l w =
        (.ok (), { w with trace := w.trace ++ l.flatMap fun x => [found_line host x, warn_line] })
  | [], w, _ => by simp [App.pick_physical_device_loop]
  | x :: rest, w, h => by
    have hx := h x (by simp)
    rw [is_device_suitable_apply] at hx
    simp only [Except.ok.injEq] at hx
    have ih := pick_loop_unsuitable host rest
      { w with trace := w.trace ++ [found_line host x] ++ [warn_line] }
      (fun y hy => (is_device_suitable_fst_congr host y _ w rfl).trans (h y (by simp [hy])))
    simp only [App.pick_physical_device_loop, run_bind, is_device_suitable_apply]
    rw [hx]
    simp only [Bool.false_eq_true, if_false, run_bind, log_warn_apply]
    rw [show Event.log Level.warn "Found device is not suitable" [] = warn_line from rfl, ih]
    simp

theorem pick_loop_first (host : Host) (d : Handle) (post : List Handle) :
    ∀ (pre : List Handle) (w : World),
      (∀ x ∈ pre, (App.is_device_suitable host x w).1 = .ok false) →
      (App.is_device_suitable host d w).1 = .ok true →
      App.pick_physical_device_loop host (pre ++ d :: post) w =
        (.ok (), { app := { w.app with phys_device_ := d },
                   trace := w.trace ++ (pre.flatMap fun x => [found_line host x, warn_line])
                     ++ [found_line host d] })
  | [], w, _, hd => by
    rw [is_device_suitable_apply] at hd
    simp only [Except.ok.injEq] at hd
    simp only [List.nil_append, App.pick_physical_device_loop, run_bind, is_device_suitable_apply]
    rw [hd]
    simp
  | x :: rest, w, h, hd => by
    have hx := h x (by simp)
    rw [is_device_suitable_apply] at hx
    simp only [Except.ok.injEq] at hx
    have ih := pick_loop_first host d post rest
      { w with trace := w.trace ++ [found_line host x] ++ [warn_line] }
      (fun y hy => (is_device_suitable_fst_congr host y _ w rfl).trans (h y (by simp [hy])))
      ((is_device_suitable_fst_congr host d _ w rfl).trans hd)
    rw [List.cons_append]
    simp only [App.pick_physical_device_loop, run_bind, is_device_suitable_apply]
    rw [hx]
    simp only [Bool.false_eq_true, if_false, run_bind, log_warn_apply]
    rw [show Event.log Level.warn "Found device is not suitable" [] = warn_line from rfl, ih]
    simp

theorem pick_physical_device_apply (host : Host) (w : World)
    (hne : host.vkEnumeratePhysicalDevices w.app.vk_instance_ ≠ []) :
    App.pick_physical_device host w =
      match App.pick_physical_device_loop host
          (host.vkEnumeratePhysicalDevices w.app.vk_instance_) w with
      | (.ok (), w1) =>
        if w1.app.phys_device_ = VK_NULL_HANDLE then
          (.ok (), { w1 with trace := w1.trace ++
            [.log .fatal "Failed to find a suitable GPU!" []] })
        else (.ok (), w1)
      | (.error e, w1) => (.error e, w1) := by
  have hlen : (host.vkEnumeratePhysicalDevices w.app.vk_instance_).length ≠ 0 := by
    simpa using hne
  simp only [App.pick_physical_device, run_bind, getApp_apply, hlen, decide_False,
    Bool.and_false, Bool.false_eq_true, if_false, run_pure]
  rcases hrun : App.pick_physical_device_loop host
      (host.vkEnumeratePhysicalDevices w.app.vk_instance_) w with ⟨r, w1⟩
  cases r with
  | error e => rfl
  | ok u =>
    cases u
    by_cases hnull : w1.app.phys_device_ = VK_NULL_HANDLE
    · simp [hnull]
    · simp [hnull]

/-- Claim C4: for a non-empty list of enumerated devices,
`App::pick_physical_device` returns and (1) when the list is
`pre ++ d :: post` with every device of `pre` unsuitable and `d` suitable, it
sets `phys_device_` to `d` and changes no other member, and the lines printed
are those of the evaluations of `pre` and of `d` only, so no device of `post` is
evaluated; (2) when no device is suitable, no member changes, so a
`phys_device_` that was `VK_NULL_HANDLE` is still `VK_NULL_HANDLE`. -/
theorem pick_physical_device_first_suitable (host : Host) (w : World)
    (hne : host.vkEnumeratePhysicalDevices w.app.vk_instance_ ≠ []) :
    (∀ pre d post, host.vkEnumeratePhysicalDevices w.app.vk_instance_ = pre ++ d :: post →
      (∀ x ∈ pre, (App.is_device_suitable host x w).1 = .ok false) →
      (App.is_device_suitable host d w).1 = .ok true →
      (App.pick_physical_device host w).1 = .ok () ∧
      (App.pick_physical_device host w).2.app = { w.app with phys_device_ := d } ∧
      (App.pick_physical_device host w).2.trace =
        w.trace ++ (pre.flatMap fun x => [found_line host x, warn_line])
          ++ [found_line host d]
          ++ (if d = VK_NULL_HANDLE then [.log .fatal "Failed to find a suitable GPU!" []]
              else [])) ∧
    ((∀ x ∈ host.vkEnumeratePhysicalDevices w.app.vk_instance_,
        (App.is_device_suitable host x w).1 = .ok false) →
      (App.pick_physical_device host w).1 = .ok () ∧
      (App.pick_physical_device host w).2.app = w.app ∧
      (w.app.phys_device_ = VK_NULL_HANDLE →
        (App.pick_physical_device host w).2.app.phys_device_ = VK_NULL_HANDLE)) := by
  constructor
  · intro pre d post hl hpre hd
    rw [pick_physical_device_apply host w hne, hl, pick_loop_first host d post pre w hpre hd]
    by_cases hnull : d = VK_NULL_HANDLE
    · simp [hnull]
    · simp [hnull]
  · intro hall
    rw [pick_physical_device_apply host w hne, pick_loop_unsuitable host _ w hall]
    by_cases hnull : w.app.phys_device_ = VK_NULL_HANDLE
    · simp [hnull]
    · simp [hnull]

theorem exists_first_suitable (host : Host) (w : World) :
    ∀ l : List Handle, (∃ d ∈ l, (App.is_device_suitable host d w).1 = .ok true) →
      ∃ pre d post, l = pre ++ d :: post ∧
        (∀ x ∈ pre, (App.is_device_suitable host x w).1 = .ok false) ∧
        (App.is_device_suitable host d w).1 = .ok true
  | [], h => by simp at h
  | y :: ys, h => by
    by_cases hy : (App.is_device_suitable host y w).1 = .ok true
    · exact ⟨[], y, ys, rfl, by simp, hy⟩
    · have hy2 : (App.is_device_suitable host y w).1 = .ok false := by
        rw [is_device_suitable_apply] at hy ⊢
        simpa using hy
      have h2 : ∃ d ∈ ys, (App.is_device_suitable host d w).1 = .ok true := by
        obtain ⟨d, hd, hsd⟩ := h
        rcases List.mem_cons.mp hd with h1 | h1
        · rw [h1] at hsd; exact absurd hsd hy
        · exact ⟨d, h1, hsd⟩
      obtain ⟨pre, d, post, hl, hpre, hd⟩ := exists_first_suitable host w ys h2
      refine ⟨y :: pre, d, post, by simp [hl], ?_, hd⟩
      intro z hz
      rcases List.mem_cons.mp hz with h1 | h1
      · rw [h1]; exact hy2
      · exact hpre z h1

theorem create_logical_device_ok (host : Host) (w : World)
    (h : (find_queue_families host w.app.phys_device_ w.app.surface_).graphics_family.isSome
      = true) :
    (App.create_logical_device host w).1 = .ok () := by
  obtain ⟨k, hk⟩ := Option.isSome_iff_exists.mp h
  by_cases hres : (host.vkCreateDevice w.app.phys_device_).1 = VK_SUCCESS
  · simp [App.create_logical_device, hk, optional_value, hres]
  · simp [App.create_logical_device, hk, optional_value, hres]

/-- Claim C8: let `host` give the answers of the API while
`App::pick_physical_device` runs and `later` the answers while
`App::create_logical_device` runs, and let both give the same queue families
for every device.  If some enumerated device is suitable, so that
`pick_physical_device` selects one, then `find_queue_families` on the selected
device and the surface reports a graphics family in `create_logical_device`,
and `create_logical_device` returns normally: neither
`graphics_family.value()` throws. -/
theorem create_logical_device_value_safe (host later : Host) (w : World)
    (hsame : ∀ device, later.vkGetPhysicalDeviceQueueFamilyProperties device
      = host.vkGetPhysicalDeviceQueueFamilyProperties device)
    (hsel : ∃ d ∈ host.vkEnumeratePhysicalDevices w.app.vk_instance_,
      (App.is_device_suitable host d w).1 = .ok true) :
    (App.pick_physical_device host w).1 = .ok () ∧
    (find_queue_families later (App.pick_physical_device host w).2.app.phys_device_
      (App.pick_physical_device host w).2.app.surface_).graphics_family.isSome = true ∧
    (App.create_logical_device later (App.pick_physical_device host w).2).1 = .ok () := by
  have hne : host.vkEnumeratePhysicalDevices w.app.vk_instance_ ≠ [] := by
    obtain ⟨d, hd, _⟩ := hsel
    exact List.ne_nil_of_mem hd
  obtain ⟨pre, d, post, hl, hpre, hd⟩ := exists_first_suitable host w _ hsel
  have hgf : (find_queue_families later d w.app.surface_).graphics_family.isSome = true := by
    rw [is_device_suitable_apply] at hd
    simp only [Except.ok.injEq, Bool.and_eq_true] at hd
    rw [find_queue_families_graphics_isSome, hsame, ← find_queue_families_graphics_isSome]
    exact hd.2
  have hrun : (App.pick_physical_device host w).1 = .ok () ∧
      (App.pick_physical_device host w).2.app = { w.app with phys_device_ := d } := by
    rw [pick_physical_device_apply host w hne, hl, pick_loop_first host d post pre w hpre hd]
    by_cases hnull : d = VK_NULL_HANDLE
    · simp [hnull]
    · simp [hnull]
  have hgf2 : (find_queue_families later (App.pick_physical_device host w).2.app.phys_device_
      (App.pick_physical_device host w).2.app.surface_).graphics_family.isSome = true := by
    rw [hrun.2]
    exact hgf
  exact ⟨hrun.1, hgf2, create_logical_device_ok later _ hgf2⟩

/-! ## Lemmas on cleanup and on the debug messenger across `App::init` -/

theorem cleanup_apply (host : Host) (w : World) :
    App.cleanup host w =
      (.ok (), { w with trace := w.trace ++
        [ .log .info "Shutting down application..." [],
          (if destroy_lookup host w = true then
            .vkDestroyDebugUtilsMessengerEXT w.app.vk_instance_ w.app.debug_messenger_
           else .log .fatal "Vulkan Extension not present" []),
          .vkDestroySurfaceKHR w.app.vk_instance_ w.app.surface_,
          .vkDestroyDevice w.app.device_,
          .vkDestroyInstance w.app.vk_instance_,
          .glfwDestroyWindow w.app.main_window_.handle,
          .glfwTerminate ] }) := by
  by_cases h : host.vkGetInstanceProcAddr w.app.vk_instance_
      (STR "vkDestroyDebugUtilsMessengerEXT") = true
  · simp [App.cleanup, vk.destroy_debug_utils_messenger_ext, destroy_lookup, h]
  · simp [App.cleanup, vk.destroy_debug_utils_messenger_ext, destroy_lookup, h]

theorem cleanup_events_apply (host : Host) (w : World) :
    App.cleanup_events host w =
      [ .log .info "Shutting down application..." [],
        (if destroy_lookup host w = true then
          .vkDestroyDebugUtilsMessengerEXT w.app.vk_instance_ w.app.debug_messenger_
         else .log .fatal "Vulkan Extension not present" []),
        .vkDestroySurfaceKHR w.app.vk_instance_ w.app.surface_,
        .vkDestroyDevice w.app.device_,
        .vkDestroyInstance w.app.vk_instance_,
        .glfwDestroyWindow w.app.main_window_.handle,
        .glfwTerminate ] := by
  unfold App.cleanup_events
  rw [cleanup_apply]
  simp


theorem log_extensions_view :
    ∀ (l : List VkExtensionProperties) (w : World),
      (App.log_extensions l w).1 = .ok () ∧
      (App.log_extensions l w).2.messengerView = w.messengerView
  | [], w => by simp [App.log_extensions]
  | x :: rest, w => by
    have ih := log_extensions_view rest
      { w with trace := w.trace ++
        [.log .info "Found an extension: \x7b\x7d" [.str x.extensionName]] }
    simp only [App.log_extensions, run_bind, log_info_apply]
    refine ⟨ih.1, ih.2.trans ?_⟩
    simp [World.messengerView, Event.isCreateMessenger]

theorem create_surface_view (host : Host) (w : World) :
    (App.create_surface host w).2.messengerView = w.messengerView := by
  simp only [App.create_surface, run_bind, getApp_apply, emit_apply, modifyApp_apply, run_ite,
    log_fatal_apply, run_pure, log_info_apply]
  split_ifs <;> simp [World.messengerView, Event.isCreateMessenger]

theorem pick_loop_view (host : Host) :
    ∀ (l : List Handle) (w : World),
      (App.pick_physical_device_loop host l w).2.messengerView = w.messengerView
  | [], w => by simp [App.pick_physical_device_loop]
  | x :: rest, w => by
    have ih := pick_loop_view host rest
      { w with trace := w.trace ++ [found_line host x] ++
        [.log .warn "Found device is not suitable" []] }
    simp only [App.pick_physical_device_loop, run_bind, is_device_suitable_apply, run_ite,
      modifyApp_apply, log_warn_apply]
    split_ifs
    · simp [World.messengerView, Event.isCreateMessenger, found_line]
    · refine ih.trans ?_
      simp [World.messengerView, Event.isCreateMessenger, found_line]

theorem pick_physical_device_view (host : Host) (w : World) :
    (App.pick_physical_device host w).2.messengerView = w.messengerView := by
  simp only [App.pick_physical_device, run_bind, getApp_apply, run_ite, leave_apply, run_pure,
    log_fatal_apply]
  split_ifs with h1 h2
  · rfl
  · have hl := pick_loop_view host (host.vkEnumeratePhysicalDevices w.app.vk_instance_)
      { w with trace := w.trace ++ [.log .fatal "Failed to find GPUs with Vulkan support!" []] }
    rcases hrun : App.pick_physical_device_loop host
      (host.vkEnumeratePhysicalDevices w.app.vk_instance_)
      { w with trace := w.trace ++ [.log .fatal "Failed to find GPUs with Vulkan support!" []] }
      with ⟨r, w1⟩
    rw [hrun] at hl
    have hw : w1.messengerView = w.messengerView := by
      refine hl.trans ?_
      simp [World.messengerView, Event.isCreateMessenger]
    cases r with
    | error e => exact hw
    | ok u =>
      simp only [getApp_apply, run_ite, log_fatal_apply, run_pure]
      split_ifs
      · refine Eq.trans ?_ hw
        simp [World.messengerView, Event.isCreateMessenger]
      · exact hw
  · have hl := pick_loop_view host (host.vkEnumeratePhysicalDevices w.app.vk_instance_) w
    rcases hrun : App.pick_physical_device_loop host
      (host.vkEnumeratePhysicalDevices w.app.vk_instance_) w with ⟨r, w1⟩
    rw [hrun] at hl
    cases r with
    | error e => exact hl
    | ok u =>
      simp only [getApp_apply, run_ite, log_fatal_apply, run_pure]
      split_ifs
      · refine Eq.trans ?_ hl
        simp [World.messengerView, Event.isCreateMessenger]
      · exact hl

theorem create_logical_device_view (host : Host) (w : World) :
    (App.create_logical_device host w).2.messengerView = w.messengerView := by
  cases hg : (find_queue_families host w.app.phys_device_ w.app.surface_).graphics_family with
  | none => simp [App.create_logical_device, hg, optional_value]
  | some k =>
    simp only [App.create_logical_device, run_bind, getApp_apply, hg, optional_value,
      run_Exec_pure, emit_apply, modifyApp_apply, run_ite, log_fatal_apply, run_pure,
      log_info_apply]
    split_ifs <;> simp [World.messengerView, Event.isCreateMessenger]

theorem init_vk_view (host : Host) (w : World) :
    (App.init_vk host w).1 = .error .terminate ∨
    ((App.init_vk host w).1 = .ok () ∧
      (App.init_vk host w).2.messengerView =
        ((App.init_vk host w).2.app.vk_instance_,
         (if host.vkGetInstanceProcAddr (App.init_vk host w).2.app.vk_instance_
              (STR "vkCreateDebugUtilsMessengerEXT") = true then
            (host.vkCreateDebugUtilsMessengerEXT (App.init_vk host w).2.app.vk_instance_).2
          else w.app.debug_messenger_),
         w.trace.filter Event.isCreateMessenger ++
          (if host.vkGetInstanceProcAddr (App.init_vk host w).2.app.vk_instance_
              (STR "vkCreateDebugUtilsMessengerEXT") = true then
            [.vkCreateDebugUtilsMessengerEXT (App.init_vk host w).2.app.vk_instance_]
          else []))) := by
  by_cases hfound : vk.layer_found "VK_LAYER_KHRONOS_validation"
      host.vkEnumerateInstanceLayerProperties = true
  · right
    simp only [App.init_vk, run_bind, log_info_apply, modifyApp_apply, getApp_apply,
      vk.check_validation_layer_support, vk.check_layers_loop, hfound, Bool.not_true,
      Bool.false_eq_true, if_false, run_pure, App.call_vkCreateInstance, getTrace_apply,
      emit_apply, vk.create_debug_utils_messenger_ext, run_ite, log_fatal_apply]
    split_ifs <;> simp_all [Event.isCreateMessenger, World.messengerView] <;>
      split_ifs <;> simp_all [Event.isCreateMessenger, World.messengerView]
  · left
    have hf : vk.layer_found "VK_LAYER_KHRONOS_validation"
        host.vkEnumerateInstanceLayerProperties = false := by
      simpa using hfound
    simp [App.init_vk, vk.check_validation_layer_support, vk.check_layers_loop, hf]

theorem init_split (host : Host) (w : World) (r : Except Exit Unit × World)
    (hr : App.init host w = r) (hok : r.1 = .ok ()) :
    ∃ wA, wA.messengerView = w.messengerView ∧ (App.init_vk host wA).1 = .ok () ∧
      r.2.messengerView = (App.init_vk host wA).2.messengerView := by
  simp only [App.init, run_bind, emit_apply, log_info_apply, App.create_window, run_pure,
    modifyApp_apply, getApp_apply] at hr
  split at hr
  · rename_i x a w1 hle
    have hv1 := (log_extensions_view host.vkEnumerateInstanceExtensionProperties
      { w with trace := w.trace ++ [Event.glfwInit] ++
        [Event.glfwWindowHint GLFW_CLIENT_API GLFW_NO_API] }).2
    rw [hle] at hv1
    simp only [World.messengerView, List.filter_append, Prod.mk.injEq] at hv1
    split at hr
    · rename_i x2 a2 w2 hvk
      cases a2
      have h2 := congrArg Prod.fst hvk
      have h2w := congrArg Prod.snd hvk
      simp only at h2 h2w
      refine ⟨_, ?_, h2, ?_⟩
      · simp only [World.messengerView, List.filter_append, Prod.mk.injEq]
        refine ⟨hv1.1, hv1.2.1, ?_⟩
        rw [hv1.2.2]
        simp [Event.isCreateMessenger]
      · rw [h2w]
        split at hr
        · rename_i x3 a3 w3 hsf
          have hv3 := create_surface_view host w2
          rw [hsf] at hv3
          split at hr
          · rename_i x4 a4 w4 hpk
            have hv4 := pick_physical_device_view host w3
            rw [hpk] at hv4
            have hv5 := create_logical_device_view host w4
            rw [hr] at hv5
            exact hv5.trans (hv4.trans hv3)
          · subst hr
            simp at hok
        · subst hr
          simp at hok
    · subst hr
      simp at hok
  · rename_i x e w1 hle
    have hv1 := (log_extensions_view host.vkEnumerateInstanceExtensionProperties
      { w with trace := w.trace ++ [Event.glfwInit] ++
        [Event.glfwWindowHint GLFW_CLIENT_API GLFW_NO_API] }).1
    rw [hle] at hv1
    simp at hv1

theorem init_view (host : Host) (w : World) (hinit : (App.init host w).1 = .ok ()) :
    (App.init host w).2.messengerView =
      ((App.init host w).2.app.vk_instance_,
       (if host.vkGetInstanceProcAddr (App.init host w).2.app.vk_instance_
            (STR "vkCreateDebugUtilsMessengerEXT") = true then
          (host.vkCreateDebugUtilsMessengerEXT (App.init host w).2.app.vk_instance_).2
        else w.app.debug_messenger_),
       w.trace.filter Event.isCreateMessenger ++
        (if host.vkGetInstanceProcAddr (App.init host w).2.app.vk_instance_
            (STR "vkCreateDebugUtilsMessengerEXT") = true then
          [.vkCreateDebugUtilsMessengerEXT (App.init host w).2.app.vk_instance_]
        else [])) := by
  obtain ⟨wA, hA, hok, hview⟩ := init_split host w _ rfl hinit
  rcases init_vk_view host wA with hterm | ⟨_, hvk⟩
  · rw [hterm] at hok
    simp at hok
  · have hinst : (App.init host w).2.app.vk_instance_ = (App.init_vk host wA).2.app.vk_instance_ :=
      congrArg (fun v => v.1) hview
    have hdm : wA.app.debug_messenger_ = w.app.debug_messenger_ :=
      congrArg (fun v => v.2.1) hA
    have htr : wA.trace.filter Event.isCreateMessenger = w.trace.filter Event.isCreateMessenger :=
      congrArg (fun v => v.2.2) hA
    rw [hview, hvk, hinst, hdm, htr]

/-- Witness of claim C10 at the text `void App::init(int)`. -/
theorem func_sig_spec_witness :
    "void App::init(int)".toList.length < SIZE_MOD ∧ '(' ∈ "void App::init(int)".toList ∧
    ∃ pre post,
      "void App::init(int)".toList
        = pre ++ func_sig "void App::init(int)".toList ++ '(' :: post ∧
      '(' ∉ pre ∧ '(' ∉ func_sig "void App::init(int)".toList ∧
      ' ' ∉ func_sig "void App::init(int)".toList ∧
      (pre = [] ∨ ∃ p, pre = p ++ [' ']) :=
  ⟨by decide, by decide, func_sig_spec "void App::init(int)".toList (by decide) (by decide)⟩

/-- Witness of claim C4.  On `Host.threeDevices` the integrated GPU `41` is
evaluated and skipped, the discrete GPU `40` is selected, and `42` is never
evaluated.  On `Host.integratedOnly` no device is suitable and `phys_device_`
is still `VK_NULL_HANDLE`. -/
theorem pick_physical_device_first_suitable_witness :
    Host.threeDevices.vkEnumeratePhysicalDevices World.start.app.vk_instance_ ≠ [] ∧
    (App.pick_physical_device Host.threeDevices World.start).1 = .ok () ∧
    (App.pick_physical_device Host.threeDevices World.start).2.app
      = { World.start.app with phys_device_ := 40 } ∧
    (App.pick_physical_device Host.threeDevices World.start).2.trace =
      World.start.trace
        ++ (([41] : List Handle).flatMap fun x => [found_line Host.threeDevices x, warn_line])
        ++ [found_line Host.threeDevices 40]
        ++ (if (40 : Handle) = VK_NULL_HANDLE then
              [.log .fatal "Failed to find a suitable GPU!" []]
            else []) ∧
    (App.pick_physical_device Host.integratedOnly World.start).2.app.phys_device_
      = VK_NULL_HANDLE :=
  ⟨by decide,
   ((pick_physical_device_first_suitable Host.threeDevices World.start (by decide)).1
     [41] 40 [42] rfl (by decide!) (by decide!)).1,
   ((pick_physical_device_first_suitable Host.threeDevices World.start (by decide)).1
     [41] 40 [42] rfl (by decide!) (by decide!)).2.1,
   ((pick_physical_device_first_suitable Host.threeDevices World.start (by decide)).1
     [41] 40 [42] rfl (by decide!) (by decide!)).2.2,
   ((pick_physical_device_first_suitable Host.integratedOnly World.start (by decide)).2
     (by decide!)).2.2 rfl⟩

/-- Witness of claim C8: the device is selected on `Host.good` and the logical
device is created on `Host.messengerFails`, which has the same queue families. -/
theorem create_logical_device_value_safe_witness :
    (∀ device, Host.messengerFails.vkGetPhysicalDeviceQueueFamilyProperties device
      = Host.good.vkGetPhysicalDeviceQueueFamilyProperties device) ∧
    (∃ d ∈ Host.good.vkEnumeratePhysicalDevices World.start.app.vk_instance_,
      (App.is_device_suitable Host.good d World.start).1 = .ok true) ∧
    (App.pick_physical_device Host.good World.start).1 = .ok () ∧
    (find_queue_families Host.messengerFails
      (App.pick_physical_device Host.good World.start).2.app.phys_device_
      (App.pick_physical_device Host.good World.start).2.app.surface_).graphics_family.isSome
        = true ∧
    (App.create_logical_device Host.messengerFails
      (App.pick_physical_device Host.good World.start).2).1 = .ok () :=
  ⟨fun _ => rfl, ⟨40, by decide, by decide!⟩,
   create_logical_device_value_safe Host.good Host.messengerFails World.start (fun _ => rfl)
     ⟨40, by decide, by decide!⟩⟩

/-- Claim C1 fails on the code: on `Host.messengerFails` the creation of the debug
messenger fails, the fatal line is printed, and `App::init` goes on to create
the surface, select the device, create the logical device and retrieve the
queue, and returns normally. -/
theorem init_continues_after_fatal :
    (App.init Host.messengerFails World.start).1 = .ok () ∧
    (App.init Host.messengerFails World.start).2.trace =
      [ .log .info "Starting up..." [],
        .glfwInit,
        .glfwWindowHint GLFW_CLIENT_API GLFW_NO_API,
        .log .info "Found an extension: \x7b\x7d" [.str "VK_KHR_surface"],
        .log .info "Found an extension: \x7b\x7d" [.str "VK_KHR_win32_surface"],
        .log .info "Found an extension: \x7b\x7d" [.str "VK_EXT_debug_utils"],
        .log .info "\x7b\x7d available extensions" [.num 3],
        .glfwCreateWindow 1280 720 "VulkanApp",
        .log .info "Window \x7b\x7d created" [.str "VulkanApp"],
        .log .info "Initializing Vulkan, Vulkan Version: 1.0.0" [],
        .vkCreateInstance ["VK_LAYER_KHRONOS_validation"]
          ["VK_KHR_surface", "VK_KHR_win32_surface", "VK_EXT_debug_utils"],
        .vkCreateInstance ["VK_LAYER_KHRONOS_validation"]
          ["VK_KHR_surface", "VK_KHR_win32_surface", "VK_EXT_debug_utils"],
        .vkCreateDebugUtilsMessengerEXT 21,
        .log .fatal "failed to set up debug messenger!" [],
        .vkCreateWin32SurfaceKHR 21 12 11,
        .log .info "Window surface created for \x7b\x7d" [.str "VulkanApp"],
        .log .info "Found Physical Device: \x7b\x7d" [.str "GPU"],
        .vkCreateDevice 40 0 ["VK_LAYER_KHRONOS_validation"],
        .log .info "Logical device created" [],
        .vkGetDeviceQueue 50 0 0 ] := by
  decide!

/-- Claim C2 fails on the code: on `Host.good`, where every call succeeds,
`App::init` returns normally and its setup calls are, in order, the window
creation, `vkCreateInstance` twice, the messenger, the surface, the logical
device and the queue retrieval. -/
theorem init_creates_instance_twice :
    (App.init Host.good World.start).1 = .ok () ∧
    (App.init Host.good World.start).2.trace.filter Event.isSetupCall =
      [ .glfwCreateWindow 1280 720 "VulkanApp",
        .vkCreateInstance ["VK_LAYER_KHRONOS_validation"]
          ["VK_KHR_surface", "VK_KHR_win32_surface", "VK_EXT_debug_utils"],
        .vkCreateInstance ["VK_LAYER_KHRONOS_validation"]
          ["VK_KHR_surface", "VK_KHR_win32_surface", "VK_EXT_debug_utils"],
        .vkCreateDebugUtilsMessengerEXT 21,
        .vkCreateWin32SurfaceKHR 21 12 11,
        .vkCreateDevice 40 0 ["VK_LAYER_KHRONOS_validation"],
        .vkGetDeviceQueue 50 0 0 ] ∧
    ((App.init Host.good World.start).2.trace.filter Event.isCreateInstance).length = 2 := by
  decide!

/-- Claim C6 fails on the code: on `Host.presentAfterGraphics` family 0 does
graphics and cannot present, family 1 can present; `find_queue_families` stops
at family 0 and reports no present family. -/
theorem find_queue_families_misses_later_present_family :
    Host.presentAfterGraphics.vkGetPhysicalDeviceQueueFamilyProperties 40 =
      [ { queueFlags := VK_QUEUE_GRAPHICS_BIT, queueCount := 1 },
        { queueFlags := VK_QUEUE_TRANSFER_BIT, queueCount := 1 } ] ∧
    Host.presentAfterGraphics.vkGetPhysicalDeviceSurfaceSupportKHR 40 0 35 = 0 ∧
    Host.presentAfterGraphics.vkGetPhysicalDeviceSurfaceSupportKHR 40 1 35 = 1 ∧
    find_queue_families Host.presentAfterGraphics 40 35 =
      { graphics_family := some 0, present_family := none } := by
  decide

/-- Claim C9 fails on the code: `main.cpp` contains no `'/'`, and `filename`
returns `main.cp`, the text without its last character. -/
theorem filename_drops_last_character :
    '/' ∉ "main.cpp".toList ∧
    filename "main.cpp".toList = some "main.cp".toList ∧
    filename "src/main.cpp".toList = some "main.cpp".toList := by
  decide

end VulkanCpp
